import Mathlib

/-!
Verification of `abletonosc/osc_server.py` (class `OSCServer`).

The server is embedded shallowly: the UDP socket is modelled as a list of
receive events (a datagram with its source endpoint, or a `socket.error`
with an errno), logging is modelled as an accumulated list of log entries,
and transmission as an accumulated list of sent packets.  Python exceptions
are explicit: every fallible step yields an `Option PyExc` alongside its
effects, and each `try`/`except` block of the source is mirrored by a
`match` on that value.  The OSC codec (`OscMessage` / `OscMessageBuilder`,
vendored from pythonosc and not part of the core source) is modelled from
the spec as an abstract decode/encode pair with `ParseError` / `BuildError`
failure modes.
-/

namespace AbletonOSC

/-- A dynamically-typed OSC argument value (the spec's tagged-union of
codec-supported values, plus a constructor for values the codec cannot
encode, which make `build` fail with `BuildError`). -/
inductive Value where
  | int (n : Int)
  | str (s : String)
  | unencodable (tag : Nat)
deriving DecidableEq, Repr

/-- Whether the codec can encode this value (`unencodable` is the spec's
"argument type the codec cannot represent"). -/
def Value.encodable : Value → Bool
  | .int _ => true
  | .str _ => true
  | .unencodable _ => false

/-- A `(host, port)` endpoint address pair. -/
structure Endpoint where
  host : String
  port : Nat
deriving DecidableEq, Repr

/-- Modelled from the spec: the wire form of a datagram as seen through the
codec collaborator (the byte-level OSC encoding lives in the vendored
pythonosc codec, outside the core source).  A buffer either decodes to an
addressed argument list or is malformed. -/
inductive Dgram where
  | wellFormed (address : String) (params : List Value)
  | malformed (junk : Nat)
deriving DecidableEq, Repr

/-- A decoded OSC message: `{address, params}`. -/
structure OscMessage where
  address : String
  params : List Value
deriving DecidableEq, Repr

/-- The Python exceptions that flow through `osc_server.py`. -/
inductive PyExc where
  | parseError
  | buildError
  | bindError
  | socketError (errno : Nat)
  | overflowError
  | handlerError (info : Nat)
deriving DecidableEq, Repr

/-- Modelled from the spec: `decode(bytes) -> {address, params}` fails with
`ParseError` on malformed input (codec collaborator, `OscMessage.__init__`
in the vendored pythonosc). -/
def decodeMessage : Dgram → Except PyExc OscMessage
  | .wellFormed a p => .ok ⟨a, p⟩
  | .malformed _ => .error .parseError

/-- Modelled from the spec: `encode(address, params) -> bytes` fails with
`BuildError` on an unsupported argument type (codec collaborator,
`OscMessageBuilder.build` in the vendored pythonosc). -/
def buildMessage (address : String) (params : List Value) : Except PyExc Dgram :=
  if params.all Value.encodable then .ok (.wellFormed address params)
  else .error .buildError

/-- A handler: takes the decoded params and either returns an optional reply
param sequence or raises a Python exception. -/
def Handler : Type := List Value → Except PyExc (Option (List Value))

/-- Log entries, one per `self.logger.info` call site in the source. -/
inductive LogEntry where
  | oscBuildError
  | oscParseError
  | unknownAddress (address : String)
  | socketError
  | errorHandlingMessage
deriving DecidableEq, Repr

/-- `errno.EAGAIN` (Linux). -/
def EAGAIN : Nat := 11

/-- `errno.EWOULDBLOCK` (Linux; same value as `EAGAIN`). -/
def EWOULDBLOCK : Nat := 11

/-- The `OSCServer` object state set up by `__init__` (lines 12-33):
the local bind address, the default remote address, the response port
taken from `remote_addr[1]`, the handler registry `_callbacks`, and
whether the socket is open (`shutdown` closes it). -/
structure OSCServer where
  local_addr : Endpoint
  remote_addr : Endpoint
  response_port : Nat
  callbacks : String → Option Handler
  socketOpen : Bool

/-- `OSCServer.__init__`: bind the non-blocking UDP socket to `local_addr`;
a bind failure (port in use, invalid interface) raises and propagates to
the caller.  `bindOk` is the environment's verdict on the bind call. -/
def OSCServer.init (local_addr remote_addr : Endpoint) (bindOk : Bool) :
    Except PyExc OSCServer :=
  if bindOk then
    .ok { local_addr := local_addr
          remote_addr := remote_addr
          response_port := remote_addr.port
          callbacks := fun _ => none
          socketOpen := true }
  else
    .error .bindError

/-- `OSCServer.add_handler` (lines 35-36): `self._callbacks[address] = handler`. -/
def OSCServer.add_handler (self : OSCServer) (address : String) (handler : Handler) :
    OSCServer :=
  { self with callbacks := fun a => if a = address then some handler else self.callbacks a }

/-- `OSCServer.clear_handlers` (lines 38-39): `self._callbacks = {}`. -/
def OSCServer.clear_handlers (self : OSCServer) : OSCServer :=
  { self with callbacks := fun _ => none }

/-- `OSCServer.shutdown` (lines 98-102): `self._socket.close()`. -/
def OSCServer.shutdown (self : OSCServer) : OSCServer :=
  { self with socketOpen := false }

/-- A datagram handed to `socket.sendto`: the encoded message and its
destination endpoint. -/
structure SentPacket where
  dgram : Dgram
  dest : Endpoint
deriving DecidableEq, Repr

/-- The observable outcome of one `send` call: datagrams transmitted, log
entries emitted, how many times the codec's `build` was attempted, the
exception propagated to the caller (if any), and the resulting object
state. -/
structure SendResult where
  sent : List SentPacket
  logs : List LogEntry
  buildAttempts : Nat
  raised : Option PyExc
  server : OSCServer

/-- `OSCServer.send` (lines 41-62): build the message, defaulting
`remote_addr` to the configured remote address, and transmit it; a
`BuildError` is caught and logged (`except BuildError`, line 61), any
other exception escaping the `try` body would propagate. -/
def OSCServer.send (self : OSCServer) (address : String) (params : List Value)
    (remote_addr : Option Endpoint) : SendResult :=
  match buildMessage address params with
  | .ok dgram =>
      let dest := remote_addr.getD self.remote_addr
      { sent := [⟨dgram, dest⟩], logs := [], buildAttempts := 1,
        raised := none, server := self }
  | .error e =>
      match e with
      | .buildError =>
          { sent := [], logs := [.oscBuildError], buildAttempts := 1,
            raised := none, server := self }
      | _ =>
          { sent := [], logs := [], buildAttempts := 1,
            raised := some e, server := self }

/-- `socket.sendto` (line 60): the transmit step itself can raise.  Its
deterministic failure is modelled: Python's socket layer raises
`OverflowError` when the destination port does not fit in 16 bits
("getsockaddrarg: port must be 0-65535.").  Environment-dependent
transmit failures (`EAGAIN` on a full send buffer, `gaierror`,
`EMSGSIZE`) follow the same uncaught path and are not modelled. -/
def sendto (_dgram : Dgram) (dest : Endpoint) : Except PyExc Unit :=
  if dest.port < 65536 then .ok () else .error .overflowError

/-- `OSCServer.send` (lines 41-62) with the transmit step of line 60
modelled fallibly via `sendto`: the `try` of lines 56-60 covers both
`build` and `sendto`, but the only handler is `except BuildError`
(line 61), so an exception raised by the transmit step itself is not
caught and propagates out of `send` to the caller.  Refines
`OSCServer.send`, which idealizes the transmit as infallible; the two
agree whenever the destination is transmittable (`sendto` succeeds). -/
def OSCServer.send_transmit (self : OSCServer) (address : String) (params : List Value)
    (remote_addr : Option Endpoint) : SendResult :=
  match buildMessage address params with
  | .ok dgram =>
      let dest := remote_addr.getD self.remote_addr
      match sendto dgram dest with
      | .ok _ =>
          { sent := [⟨dgram, dest⟩], logs := [], buildAttempts := 1,
            raised := none, server := self }
      | .error e =>
          match e with
          | .buildError =>
              { sent := [], logs := [.oscBuildError], buildAttempts := 1,
                raised := none, server := self }
          | _ =>
              { sent := [], logs := [], buildAttempts := 1,
                raised := some e, server := self }
  | .error e =>
      match e with
      | .buildError =>
          { sent := [], logs := [.oscBuildError], buildAttempts := 1,
            raised := none, server := self }
      | _ =>
          { sent := [], logs := [], buildAttempts := 1,
            raised := some e, server := self }

/-- One receive event on the non-blocking socket: either
`recvfrom` returns a datagram with its source endpoint, or it raises
`socket.error` with the given errno (`EAGAIN` when no data is queued). -/
inductive RecvEvent where
  | packet (data : Dgram) (src : Endpoint)
  | fail (errno : Nat)

/-- The effects accumulated while `process` drains the socket: datagrams
transmitted, log entries, the addresses whose handler was invoked (in
order), how many reply `send` calls were made, and the object state. -/
structure ProcessState where
  sent : List SentPacket
  logs : List LogEntry
  dispatched : List String
  sendAttempts : Nat
  server : OSCServer

/-- Append one log entry. -/
def ProcessState.addLog (st : ProcessState) (l : LogEntry) : ProcessState :=
  { st with logs := st.logs ++ [l] }

/-- The inner `try` body of `process` (lines 71-87) for one received
datagram: decode, look up the handler, invoke it, and on a non-`None`
result send the reply to `(sender host, response port)`; `ParseError`
raised anywhere in the body is caught by `except ParseError` (line 86)
and logged, any other exception escapes (second component `some e`). -/
def processInner (data : Dgram) (src : Endpoint) (st : ProcessState) :
    ProcessState × Option PyExc :=
  match decodeMessage data with
  | .error e =>
      match e with
      | .parseError => (st.addLog .oscParseError, none)
      | _ => (st, some e)
  | .ok message =>
      match st.server.callbacks message.address with
      | some callback =>
          let st := { st with dispatched := st.dispatched ++ [message.address] }
          match callback message.params with
          | .error e =>
              match e with
              | .parseError => (st.addLog .oscParseError, none)
              | _ => (st, some e)
          | .ok rv =>
              match rv with
              | none => (st, none)
              | some v =>
                  let response_addr : Endpoint := ⟨src.host, st.server.response_port⟩
                  let r := st.server.send message.address v (some response_addr)
                  let st := { st with
                              sent := st.sent ++ r.sent,
                              logs := st.logs ++ r.logs,
                              sendAttempts := st.sendAttempts + 1,
                              server := r.server }
                  match r.raised with
                  | none => (st, none)
                  | some e =>
                      match e with
                      | .parseError => (st.addLog .oscParseError, none)
                      | _ => (st, some e)
      | none => (st.addLog (.unknownAddress message.address), none)

/-- The `while True` drain loop of `process` (lines 69-87): consume receive
events in order; a `socket.error` raised by `recvfrom` or an exception
escaping the inner `try` terminates the loop and escapes to the outer
handlers (second component `some e`). -/
def processLoop (events : List RecvEvent) (st : ProcessState) :
    ProcessState × Option PyExc :=
  match events with
  | [] => (st, none)
  | ev :: rest =>
      match ev with
      | .fail errno => (st, some (.socketError errno))
      | .packet data src =>
          match processInner data src st with
          | (st', none) => processLoop rest st'
          | (st', some e) => (st', some e)

/-- The observable outcome of one `process` call. -/
structure ProcessResult where
  sent : List SentPacket
  logs : List LogEntry
  dispatched : List String
  sendAttempts : Nat
  raised : Option PyExc
  server : OSCServer

/-- `OSCServer.process` (lines 64-96): run the drain loop, then the outer
`except socket.error` (lines 89-93: `EAGAIN`/`EWOULDBLOCK` returns
silently, any other errno is logged) and `except Exception` (lines 95-96:
logged as "Error handling message") convert every escaping exception into
a normal return.  `events` is the queue the socket yields to `recvfrom`. -/
def OSCServer.process (self : OSCServer) (events : List RecvEvent) : ProcessResult :=
  let st0 : ProcessState := ⟨[], [], [], 0, self⟩
  match processLoop events st0 with
  | (st, none) =>
      ⟨st.sent, st.logs, st.dispatched, st.sendAttempts, none, st.server⟩
  | (st, some e) =>
      match e with
      | .socketError errno =>
          if errno = EAGAIN ∨ errno = EWOULDBLOCK then
            ⟨st.sent, st.logs, st.dispatched, st.sendAttempts, none, st.server⟩
          else
            let st := st.addLog .socketError
            ⟨st.sent, st.logs, st.dispatched, st.sendAttempts, none, st.server⟩
      | _ =>
          let st := st.addLog .errorHandlingMessage
          ⟨st.sent, st.logs, st.dispatched, st.sendAttempts, none, st.server⟩

/-! ## Helper lemmas -/

/-- `build` succeeds when every param is encodable, yielding the encoded
pair. -/
lemma buildMessage_ok (a : String) (p : List Value) (h : p.all Value.encodable = true) :
    buildMessage a p = .ok (.wellFormed a p) := by
  simp [buildMessage, h]

/-- `build` fails with `BuildError` (and only with `BuildError`) when some
param is unencodable. -/
lemma buildMessage_err (a : String) (p : List Value) (h : p.all Value.encodable = false) :
    buildMessage a p = .error .buildError := by
  simp [buildMessage, h]

/-- `send` never lets an exception escape to its caller: its only failure
mode is `BuildError`, which the `except BuildError` clause catches. -/
lemma send_raised (self : OSCServer) (a : String) (p : List Value)
    (r : Option Endpoint) : (self.send a p r).raised = none := by
  unfold OSCServer.send
  cases h : p.all Value.encodable
  · rw [buildMessage_err a p h]
  · rw [buildMessage_ok a p h]

/-- `send` does not mutate the server object. -/
lemma send_server (self : OSCServer) (a : String) (p : List Value)
    (r : Option Endpoint) : (self.send a p r).server = self := by
  unfold OSCServer.send
  cases h : p.all Value.encodable
  · rw [buildMessage_err a p h]
  · rw [buildMessage_ok a p h]

/-- `send` attempts the codec build exactly once. -/
lemma send_buildAttempts (self : OSCServer) (a : String) (p : List Value)
    (r : Option Endpoint) : (self.send a p r).buildAttempts = 1 := by
  unfold OSCServer.send
  cases h : p.all Value.encodable
  · rw [buildMessage_err a p h]
  · rw [buildMessage_ok a p h]

/-- When the params are encodable, `send` transmits exactly one datagram to
the given destination (or the configured default). -/
lemma send_ok (self : OSCServer) (a : String) (p : List Value) (r : Option Endpoint)
    (h : p.all Value.encodable = true) :
    self.send a p r = ⟨[⟨.wellFormed a p, r.getD self.remote_addr⟩], [], 1, none, self⟩ := by
  unfold OSCServer.send
  rw [buildMessage_ok a p h]

/-- When some param is unencodable, `send` transmits nothing, logs the build
error, and returns normally. -/
lemma send_err (self : OSCServer) (a : String) (p : List Value) (r : Option Endpoint)
    (h : p.all Value.encodable = false) :
    self.send a p r = ⟨[], [.oscBuildError], 1, none, self⟩ := by
  unfold OSCServer.send
  rw [buildMessage_err a p h]

/-- The transmit-aware `send_transmit` agrees with the idealized `send`
whenever the destination endpoint is transmittable. -/
lemma send_transmit_eq_send (self : OSCServer) (a : String) (p : List Value)
    (r : Option Endpoint) (h : (r.getD self.remote_addr).port < 65536) :
    self.send_transmit a p r = self.send a p r := by
  unfold OSCServer.send_transmit OSCServer.send sendto
  cases he : p.all Value.encodable
  · rw [buildMessage_err a p he]
  · rw [buildMessage_ok a p he]
    simp [h]

/-- Re-base a drain step's accumulated effects onto a previously accumulated
state. -/
def shiftSt (s : List SentPacket) (l : List LogEntry) (disp : List String) (n : Nat)
    (r : ProcessState × Option PyExc) : ProcessState × Option PyExc :=
  (⟨s ++ r.1.sent, l ++ r.1.logs, disp ++ r.1.dispatched, n + r.1.sendAttempts, r.1.server⟩,
   r.2)

lemma shiftSt_shiftSt (s s' : List SentPacket) (l l' : List LogEntry)
    (disp disp' : List String) (n n' : Nat) (r : ProcessState × Option PyExc) :
    shiftSt s l disp n (shiftSt s' l' disp' n' r) =
      shiftSt (s ++ s') (l ++ l') (disp ++ disp') (n + n') r := by
  simp [shiftSt, List.append_assoc, Nat.add_assoc]

/-- One inner-try step started from an accumulated state equals the same
step started from the empty state, with its effects appended. -/
lemma processInner_shift (d : Dgram) (src : Endpoint) (s : List SentPacket)
    (l : List LogEntry) (disp : List String) (n : Nat) (srv : OSCServer) :
    processInner d src ⟨s, l, disp, n, srv⟩ =
      shiftSt s l disp n (processInner d src ⟨[], [], [], 0, srv⟩) := by
  rcases d with ⟨a, p⟩ | j
  case malformed =>
    simp [processInner, decodeMessage, ProcessState.addLog, shiftSt]
  case wellFormed =>
    cases hc : srv.callbacks a with
    | none => simp [processInner, decodeMessage, hc, ProcessState.addLog, shiftSt]
    | some cb =>
      cases hcb : cb p with
      | error e =>
          cases e <;>
            simp [processInner, decodeMessage, hc, hcb, ProcessState.addLog, shiftSt]
      | ok rv =>
        cases rv with
        | none => simp [processInner, decodeMessage, hc, hcb, shiftSt]
        | some v =>
          cases hr : (srv.send a v (some ⟨src.host, srv.response_port⟩)).raised with
          | none =>
              simp [processInner, decodeMessage, hc, hcb, hr, shiftSt]
          | some e =>
              cases e <;>
                simp [processInner, decodeMessage, hc, hcb, hr, ProcessState.addLog,
                  shiftSt]

/-- The inner-try step never mutates the server object. -/
lemma processInner_server (d : Dgram) (src : Endpoint) (st : ProcessState) :
    (processInner d src st).1.server = st.server := by
  rcases d with ⟨a, p⟩ | j
  case malformed => simp [processInner, decodeMessage, ProcessState.addLog]
  case wellFormed =>
    cases hc : st.server.callbacks a with
    | none => simp [processInner, decodeMessage, hc, ProcessState.addLog]
    | some cb =>
      cases hcb : cb p with
      | error e => cases e <;> simp [processInner, decodeMessage, hc, hcb, ProcessState.addLog]
      | ok rv =>
        cases rv with
        | none => simp [processInner, decodeMessage, hc, hcb]
        | some v =>
          cases hr : (st.server.send a v (some ⟨src.host, st.server.response_port⟩)).raised with
          | none =>
              simp [processInner, decodeMessage, hc, hcb, hr, send_server]
          | some e =>
              cases e <;>
                simp [processInner, decodeMessage, hc, hcb, hr, ProcessState.addLog,
                  send_server]

/-- Draining from an accumulated state equals draining from the empty state
with the effects appended. -/
lemma processLoop_shift (evs : List RecvEvent) :
    ∀ (s : List SentPacket) (l : List LogEntry) (disp : List String) (n : Nat)
      (srv : OSCServer),
      processLoop evs ⟨s, l, disp, n, srv⟩ =
        shiftSt s l disp n (processLoop evs ⟨[], [], [], 0, srv⟩) := by
  induction evs with
  | nil => intro s l disp n srv; simp [processLoop, shiftSt]
  | cons ev rest ih =>
    intro s l disp n srv
    cases ev with
    | fail errno => simp [processLoop, shiftSt]
    | packet d src =>
      have hsrv := processInner_server d src ⟨[], [], [], 0, srv⟩
      rcases h : processInner d src ⟨[], [], [], 0, srv⟩ with ⟨⟨s1, l1, d1, n1, srv1⟩, exn⟩
      rw [h] at hsrv
      simp only at hsrv
      subst hsrv
      have hfull : processInner d src ⟨s, l, disp, n, srv1⟩ =
          (⟨s ++ s1, l ++ l1, disp ++ d1, n + n1, srv1⟩, exn) := by
        rw [processInner_shift, h]; simp [shiftSt]
      cases exn with
      | none =>
          simp only [processLoop, hfull, h]
          rw [ih, ih s1 l1 d1 n1 srv1, shiftSt_shiftSt]
      | some e =>
          simp [processLoop, hfull, h, shiftSt]

/-- The drain loop never mutates the server object. -/
lemma processLoop_server (evs : List RecvEvent) :
    ∀ st : ProcessState, (processLoop evs st).1.server = st.server := by
  induction evs with
  | nil => intro st; simp [processLoop]
  | cons ev rest ih =>
    intro st
    cases ev with
    | fail errno => simp [processLoop]
    | packet d src =>
      have hsrv := processInner_server d src st
      rcases h : processInner d src st with ⟨st1, exn⟩
      rw [h] at hsrv
      cases exn with
      | none => simp only [processLoop, h]; rw [ih, hsrv]
      | some e => simp only [processLoop, h]; exact hsrv

/-- `process` never mutates the server object (in particular the handler
registry, the configured addresses and the response port are unchanged). -/
lemma process_server (self : OSCServer) (events : List RecvEvent) :
    (self.process events).server = self := by
  have hsrv := processLoop_server events ⟨[], [], [], 0, self⟩
  rcases h : processLoop events ⟨[], [], [], 0, self⟩ with ⟨st, exn⟩
  rw [h] at hsrv
  cases exn with
  | none => simp only [OSCServer.process, h]; exact hsrv
  | some e =>
      cases e <;> simp only [OSCServer.process, h] <;>
        first
          | exact hsrv
          | (split <;> simp only [ProcessState.addLog] <;> exact hsrv)

/-- The outer `except socket.error` / `except Exception` clauses convert
every exception escaping the drain loop into a normal return. -/
lemma process_raised (self : OSCServer) (events : List RecvEvent) :
    (self.process events).raised = none := by
  rcases h : processLoop events ⟨[], [], [], 0, self⟩ with ⟨st, exn⟩
  cases exn with
  | none => simp only [OSCServer.process, h]
  | some e =>
      cases e <;>
        (simp only [OSCServer.process, h]
         try first
           | rfl
           | (split <;> rfl))

/-- Draining an empty queue does nothing. -/
lemma process_nil (self : OSCServer) :
    self.process [] = ⟨[], [], [], 0, none, self⟩ := rfl

/-- If the inner-try step on the first datagram finishes without an escaping
exception, `process` on the whole queue is that step's effects followed by
`process` on the rest of the queue. -/
lemma process_cons (self : OSCServer) (d : Dgram) (src : Endpoint)
    (rest : List RecvEvent) (ps : List SentPacket) (pl : List LogEntry)
    (pd : List String) (pn : Nat)
    (h : processInner d src ⟨[], [], [], 0, self⟩ = (⟨ps, pl, pd, pn, self⟩, none)) :
    self.process (.packet d src :: rest) =
      ⟨ps ++ (self.process rest).sent,
       pl ++ (self.process rest).logs,
       pd ++ (self.process rest).dispatched,
       pn + (self.process rest).sendAttempts,
       (self.process rest).raised,
       (self.process rest).server⟩ := by
  have hloop : processLoop (.packet d src :: rest) ⟨[], [], [], 0, self⟩ =
      shiftSt ps pl pd pn (processLoop rest ⟨[], [], [], 0, self⟩) := by
    simp only [processLoop, h]
    exact processLoop_shift rest ps pl pd pn self
  rcases hr : processLoop rest ⟨[], [], [], 0, self⟩ with ⟨⟨s1, l1, d1, n1, srv1⟩, exn⟩
  rw [hr] at hloop
  cases exn with
  | none =>
      simp only [OSCServer.process, hloop, hr, shiftSt]
  | some e =>
      cases e <;>
        simp only [OSCServer.process, hloop, hr, shiftSt, ProcessState.addLog] <;>
        first
          | (split <;> simp [*, List.append_assoc])
          | simp [List.append_assoc]

/-! ## Concrete instances used to exercise the model -/

/-- A freshly constructed server (the `.ok` result of `OSCServer.init` with
the default addresses of the source: listen on `0.0.0.0`, respond to
`127.0.0.1` on the response port). -/
def baseServer : OSCServer :=
  ⟨⟨"0.0.0.0", 11000⟩, ⟨"127.0.0.1", 11001⟩, 11001, fun _ => none, true⟩

/-- A handler that raises a (non-`ParseError`) Python exception. -/
def raisingHandler : Handler := fun _ => .error (.handlerError 0)

/-- A handler that returns `None`. -/
def nullHandler : Handler := fun _ => .ok none

/-- A handler that returns the empty param tuple `()` (non-`None`). -/
def emptyReplyHandler : Handler := fun _ => .ok (some [])

/-- A handler that returns `(1, 2)`. -/
def pongHandler : Handler := fun _ => .ok (some [.int 1, .int 2])

/-- A server with a raising handler on `/a` and a well-behaved handler on
`/b`. -/
def faultServer : OSCServer :=
  (baseServer.add_handler "/a" raisingHandler).add_handler "/b" nullHandler

/-! ## Claims -/

/-- C1: a batch of two decodable datagrams is queued; the first one's
handler raises a generic exception.  The exception escapes the inner
`try` (which catches only `ParseError`), aborts the `while` loop, and is
caught by the outer `except Exception` of `process` — so only `/a` is
dispatched: the second datagram `/b` is never dispatched in this
`process()` call, the single log entry is the outer "Error handling
message" one, and no reply is sent.  This contradicts the claim that the
fault is caught at the dispatch call site and every other datagram in the
batch is still dispatched in the same call. -/
theorem handler_fault_aborts_drain :
    faultServer.process
        [.packet (.wellFormed "/a" []) ⟨"1.2.3.4", 55000⟩,
         .packet (.wellFormed "/b" []) ⟨"1.2.3.4", 55001⟩,
         .fail EAGAIN] =
      ⟨[], [.errorHandlingMessage], ["/a"], 0, none, faultServer⟩ := by
  rfl

/-- C2 counterexample: the `try` of `send` (lines 56-60) catches only
`BuildError`, so a failure of the transmit step itself escapes `send()`
to the caller.  At destination port 70000 the `sendto` of line 60
deterministically raises `OverflowError` (port must fit in 16 bits):
`send` propagates it and returns abnormally, with nothing transmitted —
refuting "send() returns normally and never propagates an exception for
every send argument". -/
theorem send_transmit_overflow_escapes :
    (baseServer.send_transmit "/x" [] (some ⟨"127.0.0.1", 70000⟩)).raised =
      some .overflowError ∧
    (baseServer.send_transmit "/x" [] (some ⟨"127.0.0.1", 70000⟩)).raised ≠ none ∧
    (baseServer.send_transmit "/x" [] (some ⟨"127.0.0.1", 70000⟩)).sent = [] :=
  ⟨rfl, by decide, rfl⟩

/-- C2 (amended): `process` never propagates an exception to the caller
(its outer `except socket.error` / `except Exception` clauses convert
every escaping exception into a normal return), and `send` returns
normally for every argument whose destination endpoint the socket can
transmit to (its `except BuildError` clause catches the build failure,
the only fallible step before an infallible transmit) — but a failure
of the transmit step itself is not caught and propagates out of
`send()`; besides that, only construction propagates a failure, namely
the socket bind error. -/
theorem exception_propagation_policy :
    (∀ (self : OSCServer) (a : String) (p : List Value) (r : Option Endpoint),
        (r.getD self.remote_addr).port < 65536 →
          (self.send_transmit a p r).raised = none) ∧
    (∀ (self : OSCServer) (events : List RecvEvent),
        (self.process events).raised = none) ∧
    (∀ la ra : Endpoint, OSCServer.init la ra false = .error .bindError) := by
  refine ⟨?_, process_raised, fun la ra => rfl⟩
  intro self a p r h
  rw [send_transmit_eq_send self a p r h]
  exact send_raised self a p r

/-- C2 (amended) witness at a transmittable destination. -/
theorem exception_propagation_policy_witness :
    ((some (⟨"127.0.0.1", 11001⟩ : Endpoint)).getD baseServer.remote_addr).port < 65536 ∧
    (baseServer.send_transmit "/ok" [.int 5] (some ⟨"127.0.0.1", 11001⟩)).raised = none :=
  ⟨by decide,
   exception_propagation_policy.1 baseServer "/ok" [.int 5]
     (some ⟨"127.0.0.1", 11001⟩) (by decide)⟩

/-- C7: registering `h1` then `h2` for the same address leaves the registry
(indeed the whole server state) identical to registering `h2` alone, the
overwrite raises no error (`add_handler` is total), and a matching lookup
afterwards yields `h2`. -/
theorem add_handler_overwrite (s : OSCServer) (a : String) (h1 h2 : Handler) :
    (s.add_handler a h1).add_handler a h2 = s.add_handler a h2 ∧
    ((s.add_handler a h1).add_handler a h2).callbacks a = some h2 := by
  constructor
  · rcases s with ⟨la, ra, rp, cbs, so⟩
    simp only [OSCServer.add_handler, OSCServer.mk.injEq, true_and, and_true]
    funext x
    by_cases hx : x = a <;> simp [hx]
  · simp [OSCServer.add_handler]

/-- C10: no operation modifies the configured local address, default remote
address or response port; the registry is untouched by `send`, `process`
and `shutdown` (the latter three leave the whole object state unchanged
except that `shutdown` closes the socket). -/
theorem constructed_config_immutable (s : OSCServer) (a : String) (h : Handler)
    (params : List Value) (r : Option Endpoint) (events : List RecvEvent) :
    ((s.add_handler a h).local_addr = s.local_addr ∧
     (s.add_handler a h).remote_addr = s.remote_addr ∧
     (s.add_handler a h).response_port = s.response_port) ∧
    (s.clear_handlers.local_addr = s.local_addr ∧
     s.clear_handlers.remote_addr = s.remote_addr ∧
     s.clear_handlers.response_port = s.response_port) ∧
    (s.shutdown.local_addr = s.local_addr ∧
     s.shutdown.remote_addr = s.remote_addr ∧
     s.shutdown.response_port = s.response_port ∧
     s.shutdown.callbacks = s.callbacks) ∧
    (s.send a params r).server = s ∧
    (s.process events).server = s := by
  refine ⟨⟨rfl, rfl, rfl⟩, ⟨rfl, rfl, rfl⟩, ⟨rfl, rfl, rfl, rfl⟩, ?_, ?_⟩
  · exact send_server s a params r
  · exact process_server s events

/-- A server with the P4 scenario handler: `/test` returning `(1, 2)`. -/
def testServer : OSCServer := baseServer.add_handler "/test" pongHandler

/-- A server whose `/e` handler returns the empty tuple. -/
def emptyReplyServer : OSCServer := baseServer.add_handler "/e" emptyReplyHandler

/-- C3: when the registered handler returns an (encodable) result, the
reply datagram is sent to the sender's host combined with the statically
configured response port — the destination is `⟨src.host,
self.response_port⟩` whatever the inbound datagram's source port was —
and it carries the same OSC address `a` as the inbound message; the rest
of the queue is then drained as usual. -/
theorem reply_addressing (self : OSCServer) (a : String) (p : List Value)
    (cb : Handler) (rv : List Value) (src : Endpoint) (rest : List RecvEvent)
    (hcb : self.callbacks a = some cb) (hrv : cb p = .ok (some rv))
    (henc : rv.all Value.encodable = true) :
    self.process (.packet (.wellFormed a p) src :: rest) =
      ⟨⟨.wellFormed a rv, ⟨src.host, self.response_port⟩⟩ :: (self.process rest).sent,
       (self.process rest).logs,
       a :: (self.process rest).dispatched,
       1 + (self.process rest).sendAttempts,
       none, self⟩ := by
  have hs := send_ok self a rv (some ⟨src.host, self.response_port⟩) henc
  have h : processInner (.wellFormed a p) src ⟨[], [], [], 0, self⟩ =
      (⟨[⟨.wellFormed a rv, ⟨src.host, self.response_port⟩⟩], [], [a], 1, self⟩, none) := by
    simp [processInner, decodeMessage, hcb, hrv, hs]
  have hc := process_cons self (.wellFormed a p) src rest _ _ _ _ h
  rw [hc]
  simp [process_raised, process_server]

/-- C3 witness: `/test` returning `(1, 2)` in response to a datagram from
`(1.2.3.4, 55000)` is answered at `(1.2.3.4, 11001)` — the configured
response port, not port 55000 — with address `/test`. -/
theorem reply_addressing_witness :
    testServer.callbacks "/test" = some pongHandler ∧
    pongHandler [] = .ok (some [.int 1, .int 2]) ∧
    testServer.process [.packet (.wellFormed "/test" []) ⟨"1.2.3.4", 55000⟩] =
      ⟨[⟨.wellFormed "/test" [.int 1, .int 2], ⟨"1.2.3.4", 11001⟩⟩], [], ["/test"],
       1, none, testServer⟩ :=
  ⟨rfl, rfl, by
    simpa [process_nil] using
      reply_addressing testServer "/test" [] pongHandler [.int 1, .int 2]
        ⟨"1.2.3.4", 55000⟩ [] rfl rfl rfl⟩

/-- C4: `send` with an argument the codec cannot encode returns normally
(no exception), transmits nothing, makes exactly one build attempt, logs
the build error, and leaves the server unchanged. -/
theorem send_build_failure_contained (self : OSCServer) (a : String)
    (params : List Value) (r : Option Endpoint)
    (h : params.all Value.encodable = false) :
    self.send a params r = ⟨[], [.oscBuildError], 1, none, self⟩ :=
  send_err self a params r h

/-- C4 witness at the unencodable argument `Value.unencodable 0`. -/
theorem send_build_failure_contained_witness :
    ([Value.unencodable 0].all Value.encodable = false) ∧
    baseServer.send "/x" [.unencodable 0] none =
      ⟨[], [.oscBuildError], 1, none, baseServer⟩ :=
  ⟨rfl, send_build_failure_contained baseServer "/x" [.unencodable 0] none rfl⟩

/-- C5 counterexample: the source guards the reply only with
`if rv is not None` (line 78), so a handler returning the empty tuple
`()` — non-null but empty — still causes a reply datagram (with zero
params) to be sent, contradicting the claim that an empty result sends
no reply. -/
theorem empty_result_still_replies :
    emptyReplyHandler [] = .ok (some []) ∧
    (emptyReplyServer.process
        [.packet (.wellFormed "/e" []) ⟨"9.9.9.9", 4242⟩]).sent =
      [⟨.wellFormed "/e" [], ⟨"9.9.9.9", 11001⟩⟩] :=
  ⟨rfl, rfl⟩

/-- C5 (amended): within `process()`, a reply send is attempted iff the
invoked handler returns a non-`None` result — an empty param sequence
included — and what reaches the socket is exactly what `send` transmits
for that result (one datagram when it is encodable, none otherwise); a
`None` result causes no reply attempt. -/
theorem reply_iff_result_nonnull (self : OSCServer) (a : String) (p : List Value)
    (cb : Handler) (rv : Option (List Value)) (src : Endpoint) (rest : List RecvEvent)
    (hcb : self.callbacks a = some cb) (hrv : cb p = .ok rv) :
    (self.process (.packet (.wellFormed a p) src :: rest)).sendAttempts =
      (match rv with | some _ => 1 | none => 0) + (self.process rest).sendAttempts ∧
    (self.process (.packet (.wellFormed a p) src :: rest)).sent =
      (match rv with
        | some v => (self.send a v (some ⟨src.host, self.response_port⟩)).sent
        | none => []) ++ (self.process rest).sent := by
  cases rv with
  | none =>
      have h : processInner (.wellFormed a p) src ⟨[], [], [], 0, self⟩ =
          (⟨[], [], [a], 0, self⟩, none) := by
        simp [processInner, decodeMessage, hcb, hrv]
      have hc := process_cons self (.wellFormed a p) src rest _ _ _ _ h
      rw [hc]
      simp
  | some v =>
      have hr := send_raised self a v (some ⟨src.host, self.response_port⟩)
      have hsv := send_server self a v (some ⟨src.host, self.response_port⟩)
      have h : processInner (.wellFormed a p) src ⟨[], [], [], 0, self⟩ =
          (⟨(self.send a v (some ⟨src.host, self.response_port⟩)).sent,
            (self.send a v (some ⟨src.host, self.response_port⟩)).logs,
            [a], 1, self⟩, none) := by
        simp [processInner, decodeMessage, hcb, hrv, hr, hsv]
      have hc := process_cons self (.wellFormed a p) src rest _ _ _ _ h
      rw [hc]
      simp

/-- C5 (amended) witness: the empty-tuple handler triggers exactly one
reply send attempt. -/
theorem reply_iff_result_nonnull_witness :
    emptyReplyServer.callbacks "/e" = some emptyReplyHandler ∧
    emptyReplyHandler [] = .ok (some []) ∧
    (emptyReplyServer.process
        [.packet (.wellFormed "/e" []) ⟨"9.9.9.9", 4242⟩]).sendAttempts = 1 :=
  ⟨rfl, rfl, by
    simpa [process_nil] using
      (reply_iff_result_nonnull emptyReplyServer "/e" [] emptyReplyHandler (some [])
        ⟨"9.9.9.9", 4242⟩ [] rfl rfl).1⟩

/-- C6: a datagram that fails to decode contributes exactly one parse-error
log entry, no reply, no dispatch; `process` does not raise, the handler
registry (indeed the whole server object) is unchanged, and the remaining
queued datagrams are drained exactly as they would have been. -/
theorem parse_error_isolated (self : OSCServer) (j : Nat) (src : Endpoint)
    (rest : List RecvEvent) :
    self.process (.packet (.malformed j) src :: rest) =
      ⟨(self.process rest).sent,
       .oscParseError :: (self.process rest).logs,
       (self.process rest).dispatched,
       (self.process rest).sendAttempts,
       none, self⟩ := by
  have h : processInner (.malformed j) src ⟨[], [], [], 0, self⟩ =
      (⟨[], [.oscParseError], [], 0, self⟩, none) := by
    simp [processInner, decodeMessage, ProcessState.addLog]
  have hc := process_cons self (.malformed j) src rest _ _ _ _ h
  rw [hc]
  simp [process_raised, process_server]

/-- C8: a well-formed datagram whose address has no registered handler
contributes exactly one "unknown address" log entry — no reply, no
dispatch, no exception — and the remaining queued datagrams are drained
exactly as they would have been. -/
theorem unknown_address_noop (self : OSCServer) (a : String) (p : List Value)
    (src : Endpoint) (rest : List RecvEvent) (hcb : self.callbacks a = none) :
    self.process (.packet (.wellFormed a p) src :: rest) =
      ⟨(self.process rest).sent,
       .unknownAddress a :: (self.process rest).logs,
       (self.process rest).dispatched,
       (self.process rest).sendAttempts,
       none, self⟩ := by
  have h : processInner (.wellFormed a p) src ⟨[], [], [], 0, self⟩ =
      (⟨[], [.unknownAddress a], [], 0, self⟩, none) := by
    simp [processInner, decodeMessage, hcb, ProcessState.addLog]
  have hc := process_cons self (.wellFormed a p) src rest _ _ _ _ h
  rw [hc]
  simp [process_raised, process_server]

/-- C8 witness: a fresh server has no handler for `/nope`, and a datagram
for it yields only the log entry. -/
theorem unknown_address_noop_witness :
    baseServer.callbacks "/nope" = none ∧
    baseServer.process [.packet (.wellFormed "/nope" []) ⟨"1.1.1.1", 9⟩] =
      ⟨[], [.unknownAddress "/nope"], [], 0, none, baseServer⟩ :=
  ⟨rfl, by
    simpa [process_nil] using
      unknown_address_noop baseServer "/nope" [] ⟨"1.1.1.1", 9⟩ [] rfl⟩

/-- C9: a `socket.error` from `recvfrom` terminates the drain loop at once
(the remaining events are never read); at the `process` level a
would-block errno (`EAGAIN`/`EWOULDBLOCK`) returns normally with no log
entry, while any other errno is logged as a socket error and also returns
normally (never propagated). -/
theorem socket_error_handling (self : OSCServer) (st : ProcessState)
    (rest : List RecvEvent) (errno : Nat) :
    processLoop (.fail errno :: rest) st = (st, some (.socketError errno)) ∧
    self.process (.fail EAGAIN :: rest) = ⟨[], [], [], 0, none, self⟩ ∧
    (errno ≠ EAGAIN →
      self.process (.fail errno :: rest) = ⟨[], [.socketError], [], 0, none, self⟩) := by
  refine ⟨rfl, rfl, ?_⟩
  intro h
  simp only [EAGAIN] at h
  simp [OSCServer.process, processLoop, EAGAIN, EWOULDBLOCK, ProcessState.addLog, h]

/-- C9 witness at errno 13 (`EACCES`), which is not a would-block errno. -/
theorem socket_error_handling_witness :
    (13 ≠ EAGAIN) ∧
    baseServer.process [.fail 13] = ⟨[], [.socketError], [], 0, none, baseServer⟩ :=
  ⟨by decide,
   (socket_error_handling baseServer ⟨[], [], [], 0, baseServer⟩ [] 13).2.2 (by decide)⟩

end AbletonOSC
